import Mathlib

/-!
Shallow embedding of `src/dbt/adapters/vertica/connections.py` (the dbt-vertica
adapter's connection manager) and proofs of the specification claims about it.

The vendor driver (`vertica_python`) and the host framework (dbt-core, agate)
are modelled as oracles: fallible operations returning `Except PyExc`, and
abstract result-processing functions passed as parameters.
-/

/-- Python exceptions that can cross the adapter boundary.  `databaseError`
models `vertica_python.DatabaseError`; `otherError` models every other
subclass of `Exception`.  `str(exc)` is the carried message. -/
inductive PyExc where
  | databaseError (m : String)
  | otherError (m : String)
deriving DecidableEq, Repr

/-- `str(exc)` for a driver exception. -/
def PyExc.msg : PyExc → String
  | .databaseError m => m
  | .otherError m => m

/-- The three framework exception types raised by the adapter
(`dbt.exceptions.FailedToConnectException`, `DatabaseException`,
`RuntimeException`). -/
inductive DbtExc where
  | failedToConnect (m : String)
  | databaseException (m : String)
  | runtimeException (m : String)
deriving DecidableEq, Repr

/-- Embeds the `verticaCredentials` dataclass (fields and defaults as in the
source). -/
structure verticaCredentials where
  host : String
  database : String
  schema : String
  username : String
  password : String
  port : Int := 5433
  timeout : Int := 3600
  withMaterialization : Bool := false
deriving DecidableEq, Repr

/-- The connection-parameters dictionary built inside `open` and passed to
`vertica_python.connect` (keys as in the source). -/
structure ConnInfo where
  host : String
  port : Int
  user : String
  password : String
  database : String
  connection_timeout : Int
  connection_load_balance : Bool
  session_label : String
deriving DecidableEq, Repr

/-- A dbt connection object as `open` sees it: a `state` string, an optional
driver handle, and credentials.  `H` is the driver handle type. -/
structure Connection (H : Type) where
  state : String
  handle : Option H
  credentials : verticaCredentials
deriving Repr

/-- Oracle for the `vertica_python` driver operations used by `open`:
`connect`, `handle.cursor()`, `cur.execute(sql)`, `cur.close()`.  Each may
raise a Python exception. -/
structure Driver (H C : Type) where
  connect : ConnInfo → Except PyExc H
  cursor : H → Except PyExc C
  executeSql : C → String → Except PyExc Unit
  closeCursor : C → Except PyExc Unit

/-- Observable driver calls made by `open`, recorded in order. -/
inductive DriverCall where
  | connectCall (info : ConnInfo)
  | cursorCall
  | sqlCall (sql : String)
  | closeCall
deriving DecidableEq, Repr

/-- The `conn_info` dictionary literal of `open` (lines 48-57 of the source),
built from the credentials. -/
def buildConnInfo (credentials : verticaCredentials) : ConnInfo :=
  { host := credentials.host
    port := credentials.port
    user := credentials.username
    password := credentials.password
    database := credentials.database
    connection_timeout := credentials.timeout
    connection_load_balance := true
    session_label := "dbt_" ++ credentials.username }

/-- The statement executed when `credentials.withMaterialization` is set. -/
def enableWithClauseSql : String :=
  "ALTER SESSION SET PARAMETER EnableWithClauseMaterialization=1"

/-- The `try` block of the `withMaterialization` section of `open`
(lines 77-81): obtain a cursor, execute the ALTER SESSION statement, close
the cursor; the first exception aborts the sequence.  Returns the outcome
and the driver calls made. -/
def matAttempt {H C : Type} (d : Driver H C) (h : H) :
    Except PyExc Unit × List DriverCall :=
  match d.cursor h with
  | .error e => (.error e, [.cursorCall])
  | .ok cur =>
    match d.executeSql cur enableWithClauseSql with
    | .error e => (.error e, [.cursorCall, .sqlCall enableWithClauseSql])
    | .ok _ =>
      match d.closeCursor cur with
      | .error e =>
          (.error e, [.cursorCall, .sqlCall enableWithClauseSql, .closeCall])
      | .ok _ =>
          (.ok (), [.cursorCall, .sqlCall enableWithClauseSql, .closeCall])

/-- Result of a call to `open`: the connection after the call (the source
mutates it in place), the framework exception raised if any, and the driver
calls made in order. -/
structure OpenResult (H : Type) where
  conn : Connection H
  raised : Option DbtExc
  calls : List DriverCall
deriving Repr

/-- Embeds `verticaConnectionManager.open` (lines 39-87).  If the state is
already `"open"` the connection is returned unchanged.  Otherwise the
connection parameters are built and `connect` is called once; on failure the
state becomes `"fail"`, the handle `None`, and `FailedToConnectException` is
raised; on success the state becomes `"open"` and, when
`withMaterialization` is set, the ALTER SESSION attempt runs with every
exception swallowed. -/
def openConn {H C : Type} (d : Driver H C) (connection : Connection H) :
    OpenResult H :=
  if connection.state = "open" then
    { conn := connection, raised := none, calls := [] }
  else
    let credentials := connection.credentials
    let info := buildConnInfo credentials
    match d.connect info with
    | .error exc =>
        { conn := { connection with state := "fail", handle := none }
          raised := some (.failedToConnect exc.msg)
          calls := [.connectCall info] }
    | .ok handle =>
        let connection :=
          { connection with state := "open", handle := some handle }
        if credentials.withMaterialization then
          { conn := connection
            raised := none
            calls := .connectCall info :: (matAttempt d handle).2 }
        else
          { conn := connection, raised := none, calls := [.connectCall info] }

/-- Embeds the `exception_handler` context manager (lines 139-150) around a
body that either returns a value or raises a Python exception.  Returns the
wrapped outcome and whether `self.release()` was called. -/
def exceptionHandler {A : Type} (body : Except PyExc A) :
    Except DbtExc A × Bool :=
  match body with
  | .ok a => (.ok a, false)
  | .error (.databaseError m) => (.error (.databaseException m), true)
  | .error (.otherError m) => (.error (.runtimeException m), true)

/-- The exception taxonomy as the specification words it: driver
`DatabaseError` becomes `DatabaseException`, every other driver exception
becomes `RuntimeException`, a normal return passes through. -/
def taxonomySpec {A : Type} : Except PyExc A → Except DbtExc A
  | .ok a => .ok a
  | .error (.databaseError m) => .error (.databaseException m)
  | .error (.otherError m) => .error (.runtimeException m)

/-- One entry of `cursor.description`: `col[0]` is the column name; the
remaining tuple components are irrelevant to the adapter and kept abstract
as a type code. -/
structure ColDesc where
  name : String
  type_code : Int := 0
deriving DecidableEq, Repr

/-- A driver cursor as the adapter reads it: `description`, the rows
`fetchall` will return, the current `_message`, `rowcount`, and the
remaining result sets that successive `nextset()` calls will reach — each
either a new `_message` or a raised exception. -/
structure Cursor (Row : Type) where
  description : Option (List ColDesc)
  rows : List Row
  message : String
  rowcount : Int
  moreSets : List (Except PyExc String)

/-- The `while cursor.nextset(): check = cursor._message` loop, on the
message and the remaining result sets: each truthy `nextset()` advances and
the new `_message` is read; the loop stops when `nextset()` is falsy and
yields the final message and the messages read, or propagates the first
exception. -/
def drainAux (message : String) :
    List (Except PyExc String) → Except PyExc (String × List String)
  | [] => .ok (message, [])
  | .ok m :: rest => (drainAux m rest).map (fun p => (p.1, m :: p.2))
  | .error e :: _ => .error e

/-- The drain loop applied to a cursor: on success all remaining result sets
are consumed and `_message` holds the last one read. -/
def drainLoop {Row : Type} (c : Cursor Row) :
    Except PyExc (Cursor Row × List String) :=
  (drainAux c.message c.moreSets).map
    (fun p => ({ c with message := p.1, moreSets := [] }, p.2))

/-- The messages of a run of result sets when none of them raises;
`none` when some `nextset()` raises. -/
def okMessages : List (Except PyExc String) → Option (List String)
  | [] => some []
  | .ok m :: rest => (okMessages rest).map (m :: ·)
  | .error _ :: _ => none

/-- Embeds `AdapterResponse` as `get_response` fills it (lines 90-94). -/
structure AdapterResponse where
  message : String
  rows_affected : Int
deriving DecidableEq, Repr

/-- Embeds `verticaConnectionManager.get_response`. -/
def get_response {Row : Type} (cursor : Cursor Row) : AdapterResponse :=
  { message := cursor.message, rows_affected := cursor.rowcount }

/-- The generic tabular container the framework builds from flat data. -/
structure AgateTable (Row : Type) where
  column_names : List String
  rows : List Row
deriving Repr

/-- Modelled from the spec: `dbt.clients.agate_helper.table_from_data_flat`
(external framework code, "a generic tabular container" that carries the
given rows under the given column names). -/
def table_from_data_flat {Row : Type} (data : List Row)
    (column_names : List String) : AgateTable Row :=
  { column_names := column_names, rows := data }

/-- Modelled from the spec: `dbt.clients.agate_helper.empty_table`
(external framework code). -/
def empty_table {Row : Type} : AgateTable Row :=
  { column_names := [], rows := [] }

/-- Embeds `verticaConnectionManager.get_result_from_cursor` (lines 96-111).
`process_results` (a framework classmethod, external) is abstract.  When the
description is not `None`: column names are `col[0]` of each description
entry, rows come from `fetchall()`, the remaining result sets are drained
(an exception there propagates unwrapped), and the processed rows and the
column names go into the table. -/
def get_result_from_cursor {Row Out : Type}
    (process_results : List String → List Row → List Out)
    (cursor : Cursor Row) :
    Except PyExc (AgateTable Out × Cursor Row) :=
  match cursor.description with
  | none => .ok (table_from_data_flat [] [], cursor)
  | some desc =>
      let column_names := desc.map ColDesc.name
      let rows := cursor.rows
      let cursor1 := { cursor with rows := ([] : List Row) }
      match drainLoop cursor1 with
      | .error e => .error e
      | .ok (c2, _) =>
          let data := process_results column_names rows
          .ok (table_from_data_flat data column_names, c2)

/-- Outcome of `execute` after `add_query` has produced a cursor: a normal
return, a framework exception raised (recording whether `self.release()`
was called first), or an unwrapped Python exception escaping. -/
inductive ExecOutcome (Out Row : Type) where
  | done (resp : AdapterResponse) (table : AgateTable Out) (cursor : Cursor Row)
  | raisedDbt (e : DbtExc) (released : Bool)
  | raisedPy (e : PyExc)

/-- Embeds `verticaConnectionManager.execute` from the point where
`add_query` has returned a cursor (lines 116-129).  With `fetch` the result
table is read from the cursor; otherwise the table is empty and the
remaining result sets are drained under a `try` that, on any exception,
calls `self.release()` and raises `DatabaseException`. -/
def executeAfterQuery {Row Out : Type}
    (process_results : List String → List Row → List Out)
    (cursor : Cursor Row) (fetch : Bool) : ExecOutcome Out Row :=
  let response := get_response cursor
  if fetch then
    match get_result_from_cursor process_results cursor with
    | .ok (table, c2) => .done response table c2
    | .error e => .raisedPy e
  else
    match drainLoop cursor with
    | .ok (c2, _) => .done response empty_table c2
    | .error e => .raisedDbt (.databaseException e.msg) true

/-- Number of `connect` calls in a driver-call trace. -/
def countConnect (calls : List DriverCall) : Nat :=
  calls.countP (fun c => match c with
    | .connectCall _ => true
    | _ => false)

/-- The final `_message` after reading the given run of messages, starting
from `m0`. -/
def lastMsg (m0 : String) : List String → String
  | [] => m0
  | m :: rest => lastMsg m rest

/-! Concrete fixtures used to evaluate the definitions on sample inputs. -/

/-- A driver whose `connect` raises a `DatabaseError`. -/
def failDriver : Driver Unit Unit :=
  { connect := fun _ => .error (.databaseError "boom")
    cursor := fun _ => .ok ()
    executeSql := fun _ _ => .ok ()
    closeCursor := fun _ => .ok () }

/-- A driver that connects but whose `cursor()` raises. -/
def matFailDriver : Driver Unit Unit :=
  { connect := fun _ => .ok ()
    cursor := fun _ => .error (.otherError "no cursor")
    executeSql := fun _ _ => .ok ()
    closeCursor := fun _ => .ok () }

/-- A driver on which every operation succeeds. -/
def okDriver : Driver Unit Unit :=
  { connect := fun _ => .ok ()
    cursor := fun _ => .ok ()
    executeSql := fun _ _ => .ok ()
    closeCursor := fun _ => .ok () }

/-- Sample credentials. -/
def sampleCredentials : verticaCredentials :=
  { host := "h", database := "db", schema := "s", username := "u"
    password := "p" }

/-- Sample credentials with `withMaterialization` set. -/
def sampleCredentialsMat : verticaCredentials :=
  { sampleCredentials with withMaterialization := true }

/-- A fresh, not-yet-opened connection. -/
def initConn : Connection Unit :=
  { state := "init", handle := none, credentials := sampleCredentials }

/-- A fresh connection requesting WITH-clause materialization. -/
def initConnMat : Connection Unit :=
  { state := "init", handle := none, credentials := sampleCredentialsMat }

/-- A connection that is already open. -/
def openedConn : Connection Unit :=
  { state := "open", handle := some (), credentials := sampleCredentials }

/-- A cursor with two columns, three rows and two clean remaining result
sets. -/
def sampleCursor : Cursor Nat :=
  { description := some [⟨"a", 0⟩, ⟨"b", 0⟩]
    rows := [1, 2, 3]
    message := "m0"
    rowcount := 3
    moreSets := [.ok "m1", .ok "m2"] }

/-- `sampleCursor` after its result sets have been drained. -/
def sampleDrained : Cursor Nat :=
  { description := some [⟨"a", 0⟩, ⟨"b", 0⟩]
    rows := []
    message := "m2"
    rowcount := 3
    moreSets := [] }

/-- A cursor whose second `nextset()` raises a `DatabaseError`. -/
def errCursor : Cursor Nat :=
  { description := some [⟨"a", 0⟩]
    rows := [1]
    message := "m0"
    rowcount := 1
    moreSets := [.ok "m1", .error (.databaseError "lost")] }

/-- A row processor that returns the fetched rows unchanged. -/
def idResults : List String → List Nat → List Nat := fun _ rows => rows

/-! Helper lemmas. -/

/-- The drain recursion on an exception-free run of result sets reads every
message and ends on the last one. -/
theorem drainAux_ok (sets : List (Except PyExc String)) :
    ∀ (m0 : String) (msgs : List String), okMessages sets = some msgs →
      drainAux m0 sets = .ok (lastMsg m0 msgs, msgs) := by
  induction sets with
  | nil =>
      intro m0 msgs h
      simp [okMessages] at h
      subst h
      rfl
  | cons s rest ih =>
      intro m0 msgs h
      cases s with
      | error e => simp [okMessages] at h
      | ok m =>
          simp only [okMessages, Option.map_eq_some'] at h
          obtain ⟨msgs', h', rfl⟩ := h
          simp [drainAux, ih m msgs' h', lastMsg, Except.map]

/-- The drain loop on a cursor with an exception-free run of remaining
result sets consumes them all. -/
theorem drainLoop_ok {Row : Type} (c : Cursor Row) (msgs : List String)
    (h : okMessages c.moreSets = some msgs) :
    drainLoop c =
      .ok ({ c with message := lastMsg c.message msgs, moreSets := [] },
           msgs) := by
  unfold drainLoop
  rw [drainAux_ok c.moreSets c.message msgs h]
  rfl

/-- The materialization attempt never calls `connect`. -/
theorem countConnect_matAttempt {H C : Type} (d : Driver H C) (h : H) :
    countConnect (matAttempt d h).2 = 0 := by
  unfold matAttempt
  cases d.cursor h with
  | error e => rfl
  | ok cur =>
      dsimp only
      cases d.executeSql cur enableWithClauseSql with
      | error e => rfl
      | ok u =>
          dsimp only
          cases d.closeCursor cur with
          | error e => rfl
          | ok v => rfl

/-! Claim theorems. -/

/-- Claim C1: driver exceptions map to exactly three framework exception
types.  Every exception `open` raises is a `FailedToConnectException`;
under `exception_handler` a `vertica_python.DatabaseError` becomes a
`DatabaseException`, every other exception a `RuntimeException`, and a
normal return passes through — so no driver exception escapes unwrapped
through these paths. -/
theorem c1_exception_taxonomy {H C A : Type} (d : Driver H C)
    (conn : Connection H) (body : Except PyExc A) :
    ((openConn d conn).raised = none ∨
      ∃ m, (openConn d conn).raised = some (DbtExc.failedToConnect m)) ∧
    (exceptionHandler body).1 = taxonomySpec body := by
  constructor
  · by_cases h : conn.state = "open"
    · left
      simp [openConn, h]
    · cases hc : d.connect (buildConnInfo conn.credentials) with
      | error e =>
          right
          exact ⟨e.msg, by simp [openConn, h, hc]⟩
      | ok hdl =>
          left
          cases hm : conn.credentials.withMaterialization <;>
            simp [openConn, h, hc, hm]
  · cases body with
    | ok a => rfl
    | error e => cases e <;> rfl

/-- Claim C2: for a connection not already open, `open` builds the
connection-parameters dictionary from the credentials with exactly the
specified keys and values and passes it to the driver's connect function as
its first driver call. -/
theorem c2_conn_info {H C : Type} (d : Driver H C) (conn : Connection H)
    (h : conn.state ≠ "open") :
    (openConn d conn).calls.head? =
      some (DriverCall.connectCall (buildConnInfo conn.credentials)) ∧
    (buildConnInfo conn.credentials).host = conn.credentials.host ∧
    (buildConnInfo conn.credentials).port = conn.credentials.port ∧
    (buildConnInfo conn.credentials).user = conn.credentials.username ∧
    (buildConnInfo conn.credentials).password = conn.credentials.password ∧
    (buildConnInfo conn.credentials).database = conn.credentials.database ∧
    (buildConnInfo conn.credentials).connection_timeout =
      conn.credentials.timeout ∧
    (buildConnInfo conn.credentials).connection_load_balance = true ∧
    (buildConnInfo conn.credentials).session_label =
      "dbt_" ++ conn.credentials.username := by
  refine ⟨?_, rfl, rfl, rfl, rfl, rfl, rfl, rfl, rfl⟩
  cases hc : d.connect (buildConnInfo conn.credentials) with
  | error e => simp [openConn, h, hc]
  | ok hdl =>
      cases hm : conn.credentials.withMaterialization <;>
        simp [openConn, h, hc, hm]

/-- Witness for C2 on a fresh connection and a failing driver. -/
theorem c2_conn_info_witness :
    initConn.state ≠ "open" ∧
    ((openConn failDriver initConn).calls.head? =
      some (DriverCall.connectCall (buildConnInfo initConn.credentials)) ∧
    (buildConnInfo initConn.credentials).host = initConn.credentials.host ∧
    (buildConnInfo initConn.credentials).port = initConn.credentials.port ∧
    (buildConnInfo initConn.credentials).user =
      initConn.credentials.username ∧
    (buildConnInfo initConn.credentials).password =
      initConn.credentials.password ∧
    (buildConnInfo initConn.credentials).database =
      initConn.credentials.database ∧
    (buildConnInfo initConn.credentials).connection_timeout =
      initConn.credentials.timeout ∧
    (buildConnInfo initConn.credentials).connection_load_balance = true ∧
    (buildConnInfo initConn.credentials).session_label =
      "dbt_" ++ initConn.credentials.username) :=
  ⟨by decide, c2_conn_info failDriver initConn (by decide)⟩

/-- Claim C5: `open` is a two-outcome state machine.  For a connection
satisfying the framework invariant that an open connection carries a
handle, after `open` the connection is either in state `"open"` with a
non-None handle and no exception raised, or in state `"fail"` with the
handle set to `None` and an exception raised; no other state results. -/
theorem c5_open_fail_dichotomy {H C : Type} (d : Driver H C)
    (conn : Connection H)
    (hinv : conn.state = "open" → conn.handle.isSome = true) :
    ((openConn d conn).conn.state = "open" ∧
     (openConn d conn).conn.handle.isSome = true ∧
     (openConn d conn).raised = none) ∨
    ((openConn d conn).conn.state = "fail" ∧
     (openConn d conn).conn.handle = none ∧
     (openConn d conn).raised.isSome = true) := by
  by_cases h : conn.state = "open"
  · left
    refine ⟨?_, ?_, ?_⟩ <;> simp [openConn, h, hinv h]
  · cases hc : d.connect (buildConnInfo conn.credentials) with
    | error e =>
        right
        refine ⟨?_, ?_, ?_⟩ <;> simp [openConn, h, hc]
    | ok hdl =>
        left
        cases hm : conn.credentials.withMaterialization <;>
          (refine ⟨?_, ?_, ?_⟩ <;> simp [openConn, h, hc, hm])

/-- Witness for C5 on a fresh connection and a failing driver. -/
theorem c5_open_fail_dichotomy_witness :
    (initConn.state = "open" → initConn.handle.isSome = true) ∧
    (((openConn failDriver initConn).conn.state = "open" ∧
      (openConn failDriver initConn).conn.handle.isSome = true ∧
      (openConn failDriver initConn).raised = none) ∨
     ((openConn failDriver initConn).conn.state = "fail" ∧
      (openConn failDriver initConn).conn.handle = none ∧
      (openConn failDriver initConn).raised.isSome = true)) :=
  ⟨by decide, c5_open_fail_dichotomy failDriver initConn (by decide)⟩

/-- Claim C7: there is no retry logic.  On a connection that is not already
open, `open` invokes the driver's connect function at most once; its raised
exception is exactly determined by that single connect outcome, and when
connect fails the trace is that one connect call, so the failure propagates
immediately with no further attempt. -/
theorem c7_no_retry {H C : Type} (d : Driver H C) (conn : Connection H)
    (h : conn.state ≠ "open") :
    countConnect (openConn d conn).calls ≤ 1 ∧
    (openConn d conn).raised =
      (match d.connect (buildConnInfo conn.credentials) with
       | .error exc => some (DbtExc.failedToConnect exc.msg)
       | .ok _ => none) ∧
    (match d.connect (buildConnInfo conn.credentials) with
     | .error _ =>
         (openConn d conn).calls =
           [DriverCall.connectCall (buildConnInfo conn.credentials)]
     | .ok _ => True) := by
  cases hc : d.connect (buildConnInfo conn.credentials) with
  | error e =>
      refine ⟨?_, ?_, ?_⟩ <;> simp [openConn, h, hc, countConnect]
  | ok hdl =>
      refine ⟨?_, ?_, ?_⟩
      · have h0 := countConnect_matAttempt d hdl
        unfold countConnect at h0 ⊢
        cases hm : conn.credentials.withMaterialization <;>
          simp [openConn, h, hc, hm, List.countP_cons, h0]
      · cases hm : conn.credentials.withMaterialization <;>
          simp [openConn, h, hc, hm]
      · simp

/-- Witness for C7 on a fresh connection and a failing driver. -/
theorem c7_no_retry_witness :
    initConn.state ≠ "open" ∧
    (countConnect (openConn failDriver initConn).calls ≤ 1 ∧
    (openConn failDriver initConn).raised =
      (match failDriver.connect (buildConnInfo initConn.credentials) with
       | .error exc => some (DbtExc.failedToConnect exc.msg)
       | .ok _ => none) ∧
    (match failDriver.connect (buildConnInfo initConn.credentials) with
     | .error _ =>
         (openConn failDriver initConn).calls =
           [DriverCall.connectCall (buildConnInfo initConn.credentials)]
     | .ok _ => True)) :=
  ⟨by decide, c7_no_retry failDriver initConn (by decide)⟩

/-- Claim C8: `open` is idempotent on open connections.  When the state is
`"open"`, the connection is returned unchanged, nothing is raised, and no
driver call — in particular no connect — is made. -/
theorem c8_open_idempotent {H C : Type} (d : Driver H C)
    (conn : Connection H) (h : conn.state = "open") :
    openConn d conn = { conn := conn, raised := none, calls := [] } := by
  unfold openConn
  rw [if_pos h]

/-- Witness for C8 on an already-open connection. -/
theorem c8_open_idempotent_witness :
    openedConn.state = "open" ∧
    openConn okDriver openedConn =
      { conn := openedConn, raised := none, calls := [] } :=
  ⟨rfl, c8_open_idempotent okDriver openedConn rfl⟩

/-- Claim C9: a materialization-setup failure never fails `open`.  When the
connection is not already open, `withMaterialization` is set, connect
succeeds, and the ALTER SESSION attempt raises, `open` swallows the error
and still returns with no exception, state `"open"` and the driver
handle. -/
theorem c9_mat_error_swallowed {H C : Type} (d : Driver H C)
    (conn : Connection H) (hdl : H) (e : PyExc)
    (h : conn.state ≠ "open")
    (hw : conn.credentials.withMaterialization = true)
    (hc : d.connect (buildConnInfo conn.credentials) = .ok hdl)
    (_hm : (matAttempt d hdl).1 = .error e) :
    (openConn d conn).raised = none ∧
    (openConn d conn).conn.state = "open" ∧
    (openConn d conn).conn.handle = some hdl := by
  refine ⟨?_, ?_, ?_⟩ <;> simp [openConn, h, hw, hc]

/-- Witness for C9 on a fresh materialization-requesting connection and a
driver whose cursor creation fails. -/
theorem c9_mat_error_swallowed_witness :
    initConnMat.state ≠ "open" ∧
    initConnMat.credentials.withMaterialization = true ∧
    matFailDriver.connect (buildConnInfo initConnMat.credentials) =
      .ok () ∧
    (matAttempt matFailDriver ()).1 = .error (.otherError "no cursor") ∧
    ((openConn matFailDriver initConnMat).raised = none ∧
     (openConn matFailDriver initConnMat).conn.state = "open" ∧
     (openConn matFailDriver initConnMat).conn.handle = some ()) :=
  ⟨by decide, rfl, rfl, rfl,
    c9_mat_error_swallowed matFailDriver initConnMat ()
      (.otherError "no cursor") (by decide) rfl rfl rfl⟩

/-- Claim C3: for a cursor with a non-None description, when
`get_result_from_cursor` returns a table, its column names are exactly the
first element of each description entry in order, and its rows are exactly
the rows `fetchall()` returned, passed through `process_results`, in
order. -/
theorem c3_table_shape {Row Out : Type}
    (process_results : List String → List Row → List Out)
    (c : Cursor Row) (desc : List ColDesc) (t : AgateTable Out)
    (c2 : Cursor Row)
    (hd : c.description = some desc)
    (hr : get_result_from_cursor process_results c = .ok (t, c2)) :
    t.column_names = desc.map ColDesc.name ∧
    t.rows = process_results (desc.map ColDesc.name) c.rows := by
  unfold get_result_from_cursor at hr
  rw [hd] at hr
  dsimp only at hr
  cases hl : drainLoop { c with description := some desc
                                rows := ([] : List Row) } with
  | error e =>
      rw [hl] at hr
      exact absurd hr (by simp)
  | ok p =>
      obtain ⟨c3, msgs⟩ := p
      rw [hl] at hr
      dsimp only at hr
      simp only [Except.ok.injEq, Prod.mk.injEq] at hr
      obtain ⟨ht, -⟩ := hr
      rw [← ht]
      exact ⟨rfl, rfl⟩

/-- Witness for C3 on a concrete two-column cursor with the identity row
processor. -/
theorem c3_table_shape_witness :
    sampleCursor.description = some [⟨"a", 0⟩, ⟨"b", 0⟩] ∧
    get_result_from_cursor idResults sampleCursor =
      .ok (⟨["a", "b"], [1, 2, 3]⟩, sampleDrained) ∧
    ((⟨["a", "b"], [1, 2, 3]⟩ : AgateTable Nat).column_names =
      ([⟨"a", 0⟩, ⟨"b", 0⟩] : List ColDesc).map ColDesc.name ∧
    (⟨["a", "b"], [1, 2, 3]⟩ : AgateTable Nat).rows =
      idResults (([⟨"a", 0⟩, ⟨"b", 0⟩] : List ColDesc).map ColDesc.name)
        sampleCursor.rows) :=
  ⟨rfl, rfl,
    c3_table_shape idResults sampleCursor [⟨"a", 0⟩, ⟨"b", 0⟩]
      ⟨["a", "b"], [1, 2, 3]⟩ sampleDrained rfl rfl⟩

/-- Claim C4: multi-result-set draining repeatedly calls `nextset()`,
reading `_message` on each iteration, and stops exactly when `nextset()`
returns a falsy value.  For a cursor whose finite run of remaining result
sets raises no exception, the drain loop terminates with every set
consumed and every message read, both after fetching in
`get_result_from_cursor` and in `execute` with fetch=False. -/
theorem c4_drain {Row Out : Type}
    (process_results : List String → List Row → List Out)
    (c : Cursor Row) (desc : List ColDesc) (msgs : List String)
    (hm : okMessages c.moreSets = some msgs)
    (hd : c.description = some desc) :
    drainLoop c =
      .ok ({ c with message := lastMsg c.message msgs, moreSets := [] },
           msgs) ∧
    get_result_from_cursor process_results c =
      .ok (table_from_data_flat
             (process_results (desc.map ColDesc.name) c.rows)
             (desc.map ColDesc.name),
           { c with rows := ([] : List Row)
                    message := lastMsg c.message msgs
                    moreSets := [] }) ∧
    executeAfterQuery process_results c false =
      .done (get_response c) empty_table
        { c with message := lastMsg c.message msgs, moreSets := [] } := by
  have h1 := drainLoop_ok c msgs hm
  refine ⟨h1, ?_, ?_⟩
  · unfold get_result_from_cursor
    rw [hd]
    dsimp only
    rw [drainLoop_ok { c with description := some desc
                              rows := ([] : List Row) } msgs hm]
  · unfold executeAfterQuery
    dsimp only
    rw [h1]
    rfl

/-- Witness for C4 on a concrete cursor with two clean remaining result
sets. -/
theorem c4_drain_witness :
    okMessages sampleCursor.moreSets = some ["m1", "m2"] ∧
    sampleCursor.description = some [⟨"a", 0⟩, ⟨"b", 0⟩] ∧
    (drainLoop sampleCursor =
      .ok ({ sampleCursor with
               message := lastMsg sampleCursor.message ["m1", "m2"]
               moreSets := [] },
           ["m1", "m2"]) ∧
    get_result_from_cursor idResults sampleCursor =
      .ok (table_from_data_flat
             (idResults
               (([⟨"a", 0⟩, ⟨"b", 0⟩] : List ColDesc).map ColDesc.name)
               sampleCursor.rows)
             (([⟨"a", 0⟩, ⟨"b", 0⟩] : List ColDesc).map ColDesc.name),
           { sampleCursor with
               rows := ([] : List Nat)
               message := lastMsg sampleCursor.message ["m1", "m2"]
               moreSets := [] }) ∧
    executeAfterQuery idResults sampleCursor false =
      .done (get_response sampleCursor) empty_table
        { sampleCursor with
            message := lastMsg sampleCursor.message ["m1", "m2"]
            moreSets := [] }) :=
  ⟨rfl, rfl,
    c4_drain idResults sampleCursor [⟨"a", 0⟩, ⟨"b", 0⟩] ["m1", "m2"]
      rfl rfl⟩

/-- Claim C6: failure recovery is release-then-raise.  When the body under
`exception_handler` raises, `self.release()` is called and the wrapped
framework exception is raised; when the result-set draining loop of
`execute` with fetch=False raises, `self.release()` is called and a
`DatabaseException` wrapping the error is raised. -/
theorem c6_release_then_raise {A Row Out : Type}
    (process_results : List String → List Row → List Out)
    (body : Except PyExc A) (e : PyExc) (c : Cursor Row) (e2 : PyExc)
    (hb : body = .error e) (hl : drainLoop c = .error e2) :
    (exceptionHandler body).2 = true ∧
    (exceptionHandler body).1 =
      Except.error (match e with
        | .databaseError m => DbtExc.databaseException m
        | .otherError m => DbtExc.runtimeException m) ∧
    executeAfterQuery process_results c false =
      .raisedDbt (.databaseException e2.msg) true := by
  subst hb
  refine ⟨?_, ?_, ?_⟩
  · cases e <;> rfl
  · cases e <;> rfl
  · unfold executeAfterQuery
    dsimp only
    rw [hl]
    rfl

/-- Witness for C6 on a raising body and a cursor whose second `nextset()`
raises. -/
theorem c6_release_then_raise_witness :
    (Except.error (PyExc.databaseError "x") : Except PyExc Nat) =
      .error (.databaseError "x") ∧
    drainLoop errCursor = .error (.databaseError "lost") ∧
    ((exceptionHandler
        (Except.error (PyExc.databaseError "x") : Except PyExc Nat)).2 =
        true ∧
     (exceptionHandler
        (Except.error (PyExc.databaseError "x") : Except PyExc Nat)).1 =
       Except.error (match PyExc.databaseError "x" with
         | .databaseError m => DbtExc.databaseException m
         | .otherError m => DbtExc.runtimeException m) ∧
     executeAfterQuery idResults errCursor false =
       .raisedDbt (.databaseException (PyExc.databaseError "lost").msg)
         true) :=
  ⟨rfl, rfl,
    c6_release_then_raise idResults
      (Except.error (PyExc.databaseError "x") : Except PyExc Nat)
      (PyExc.databaseError "x") errCursor (PyExc.databaseError "lost")
      rfl rfl⟩
